import Mathlib

/-!
Verification development for the Risk Scoring & Attribution Engine of
the MENA financial-distress analyzer (source file: streamlit_app.py).

The source is shallowly embedded: Python numeric values are modelled as
exact rationals plus an explicit non-finite-float constructor, with the
int/float distinction kept where the program branches on it (the report
export).  The NaN-producing paths of the source are modelled explicitly:
the RSI chain carries NaN as Option none, and the pct_change series drops
its NaN entries (dropna) while keeping the signed Infinity produced by a
zero previous close.  Statements, the info mapping and the price history
are explicit data; the wall-clock date taken by datetime.now() is passed
as an explicit parameter; the irrational-valued annualized-volatility
statistic (std times sqrt 252 times 100) is abstracted as a function
parameter since no verified property constrains its numeric value.
-/

namespace FinDistress

/-- A Python numeric value: int or float are distinguished because the
report export formats only floats; a finite magnitude is an exact
rational (floating-point rounding is outside the model), and pinf is a
non-finite float — +Infinity when pos, -Infinity otherwise — as produced
by pandas pct_change at a zero previous close.  NaN never reaches a
stored value in the modelled paths: the pct_change NaNs are removed by
dropna, the RSI NaN chain is carried as Option none, and the remaining
isnan guards of the source test values that are not NaN by construction. -/
inductive PyVal where
| pint (n : ℤ)
| pfloat (q : ℚ)
| pinf (pos : Bool)
deriving DecidableEq

/-- Numeric magnitude of a finite Python value.  The extraction applies
it only to statement line items and info-mapping defaults, which the
data model takes as finite (a non-finite info value is given magnitude
0 here), and to volatility windows already checked to be all finite. -/
def PyVal.toRat : PyVal → ℚ
| .pint n => (n : ℚ)
| .pfloat q => q
| .pinf _ => 0

/-- isinstance(v, float) on a numeric value (an Infinity is a float). -/
def PyVal.isFloat : PyVal → Bool
| .pint _ => false
| .pfloat _ => true
| .pinf _ => true

/-- Whether a value is finite (not an Infinity). -/
def PyVal.isFinite : PyVal → Bool
| .pint _ => true
| .pfloat _ => true
| .pinf _ => false

/-- Python falsiness of a numeric value: only a zero int or float is
falsy; an Infinity is truthy. -/
def PyVal.isZero : PyVal → Bool
| .pint n => n == 0
| .pfloat q => q == 0
| .pinf _ => false

/-- Python "a or b" on numeric values: b when a is falsy. -/
def pyOr (a b : PyVal) : PyVal := if a.isZero then b else a

/-- Python "a or b" on plain rational magnitudes. -/
def qOr (a b : ℚ) : ℚ := if a = 0 then b else a

/-- The four risk tiers produced by make_prediction and consumed by the
narrative renderer. -/
inductive Tier where
| Low
| Medium
| High
| Critical
deriving DecidableEq

/-- Severity rank of a tier: Low < Medium < High < Critical. -/
def Tier.rank : Tier → ℕ
| .Low => 0
| .Medium => 1
| .High => 2
| .Critical => 3

/-- The tier policy inlined in make_prediction (source lines 739-744):
Critical when prob >= 0.7, else High when prob >= 0.5, else Medium when
prob >= 0.3, else Low. -/
def riskTier (prob : ℚ) : Tier :=
if 7/10 ≤ prob then .Critical
else if 1/2 ≤ prob then .High
else if 3/10 ≤ prob then .Medium
else .Low

/-- Claim C2: the risk-tier function returns Critical iff p >= 0.7, High
iff 0.5 <= p < 0.7, Medium iff 0.3 <= p < 0.5 and Low iff p < 0.3; the
boundaries 0.3, 0.29999, 0.5 and 0.7 land on Medium, Low, High and
Critical respectively (closed lower bounds); and the tier is monotone in
the probability under the rank ordering Low <= Medium <= High <= Critical. -/
theorem riskTier_spec : ∀ p : ℚ,
    ((riskTier p = .Critical ↔ 7/10 ≤ p)
      ∧ (riskTier p = .High ↔ 1/2 ≤ p ∧ p < 7/10)
      ∧ (riskTier p = .Medium ↔ 3/10 ≤ p ∧ p < 1/2)
      ∧ (riskTier p = .Low ↔ p < 3/10))
    ∧ (riskTier (3/10) = .Medium ∧ riskTier (29999/100000) = .Low
      ∧ riskTier (1/2) = .High ∧ riskTier (7/10) = .Critical)
    ∧ (∀ q : ℚ, p ≤ q → (riskTier p).rank ≤ (riskTier q).rank) := by
  intro p
  refine ⟨⟨?_, ?_, ?_, ?_⟩, ⟨by norm_num [riskTier], by norm_num [riskTier],
    by norm_num [riskTier], by norm_num [riskTier]⟩, ?_⟩
  · unfold riskTier
    split_ifs <;> simp_all <;>
      first
      | linarith
      | (constructor <;> linarith)
      | (intros ; linarith)
  · unfold riskTier
    split_ifs <;> simp_all <;>
      first
      | linarith
      | (constructor <;> linarith)
      | (intros ; linarith)
  · unfold riskTier
    split_ifs <;> simp_all <;>
      first
      | linarith
      | (constructor <;> linarith)
      | (intros ; linarith)
  · unfold riskTier
    split_ifs <;> simp_all <;>
      first
      | linarith
      | (constructor <;> linarith)
      | (intros ; linarith)
  · intro q hpq
    unfold riskTier Tier.rank
    split_ifs <;> simp_all <;> linarith

/-- Witness for C2: the monotonicity hypothesis discharged at the
concrete probabilities 0.2 and 0.6. -/
theorem riskTier_spec_witness :
    (riskTier (2/10)).rank ≤ (riskTier (6/10)).rank :=
  (riskTier_spec (2/10)).2.2 (6/10) (by norm_num)

/-- The canonical feature list SELECTED_FEATURES (source lines 413-428). -/
def SELECTED_FEATURES : List String :=
["Market_Cap_USD", "Low", "Volume", "Daily_Return_%", "Price_Range_%",
 "ROA_%", "Equity_Ratio", "Asset_Turnover", "OCF_to_Debt", "Altman_Z_Score",
 "Death_Cross", "True_Range", "RSI_14", "US_10Y", "Oil_Volatility_20D",
 "Oil_Below_60", "Oil_Below_40", "Brent_Change_%", "VIX_Change_%", "Very_High_VIX",
 "Strong_Dollar", "SAR_USD", "KWD_USD", "QAR_USD_Volatility_20D", "BHD_USD_Volatility_20D",
 "Gulf_Crisis_End", "Is_Month_End", "Very_High_Governance_Risk", "Has_Controversy", "Poor_Governance",
 "Operating Cf_M", "Free Cf_M", "Debt_to_Equity", "ROE_%", "Net_Profit_Margin_%",
 "Volatility_20", "ROC_20", "Egypt_FX_Crisis", "EGP_USD_Change_%", "Pandemic_Recession",
 "Environment_Score", "Social_Score", "Young_Company", "Low_Institutional_Ownership", "Month_x"]

/-- The category partition FEATURE_CATEGORIES (source lines 478-500). -/
def FEATURE_CATEGORIES : List (String × List String) :=
[("Financial Health",
   ["ROA_%", "Equity_Ratio", "Asset_Turnover", "OCF_to_Debt",
    "Altman_Z_Score", "Operating Cf_M", "Free Cf_M", "Debt_to_Equity",
    "ROE_%", "Net_Profit_Margin_%"]),
 ("Market & Price",
   ["Market_Cap_USD", "Low", "Volume", "Daily_Return_%",
    "Price_Range_%", "True_Range", "Volatility_20", "ROC_20",
    "Death_Cross", "RSI_14"]),
 ("Oil & Global Macro",
   ["Oil_Volatility_20D", "Oil_Below_60", "Oil_Below_40", "Brent_Change_%",
    "US_10Y", "VIX_Change_%", "Very_High_VIX", "Strong_Dollar"]),
 ("Regional Factors",
   ["SAR_USD", "KWD_USD", "QAR_USD_Volatility_20D", "BHD_USD_Volatility_20D",
    "Gulf_Crisis_End", "Egypt_FX_Crisis", "EGP_USD_Change_%", "Pandemic_Recession"]),
 ("Governance & ESG",
   ["Very_High_Governance_Risk", "Has_Controversy", "Poor_Governance", "Environment_Score",
    "Social_Score", "Young_Company", "Low_Institutional_Ownership"]),
 ("Timing",
   ["Is_Month_End", "Month_x"])]

/-- One row of the price/volume history DataFrame (Open, High, Low, Close,
Volume), oldest first. -/
structure PriceBar where
  open_ : ℚ
  high : ℚ
  low : ℚ
  close : ℚ
  volume : ℚ
deriving DecidableEq

/-- The wall-clock date observed by datetime.now() inside
calculate_all_metrics (source line 696), passed explicitly. -/
structure PyDate where
  day : ℕ
  month : ℕ
deriving DecidableEq

/-- A financial-statement frame: the list of its period columns, most
recent first; each column maps line-item names to numeric values.
bs.iloc[:,0] is the head column; a frame with zero columns contributes an
empty column. -/
def Stmt := List (List (String × ℚ))

/-- The raw data snapshot assembled by fetch_company_data (source lines
597-612): statements, the descriptive info mapping and the price history. -/
structure RawSnapshot where
  balance_sheet : List (List (String × ℚ))
  financials : List (List (String × ℚ))
  cash_flow : List (List (String × ℚ))
  info : List (String × PyVal)
  history : List PriceBar

/-- gv(series, key, default) (source lines 622-626): float(series[key])
when the line item is present, the given default otherwise. -/
def gv (s : List (String × ℚ)) (key : String) (dflt : PyVal) : PyVal :=
  match s.lookup key with
  | some q => .pfloat q
  | none => dflt

/-- gv with a plain rational default, for the line items whose default is
the literal 0. -/
def gvQ (s : List (String × ℚ)) (key : String) (dflt : ℚ) : ℚ :=
  match s.lookup key with
  | some q => q
  | none => dflt

/-- info.get(key, 0) on the descriptive info mapping. -/
def infoGet (info : List (String × PyVal)) (key : String) : PyVal :=
  (info.lookup key).getD (.pint 0)

/-- The most recent balance-sheet column (bs.iloc[:,0], empty when the
frame has no columns; source line 628). -/
def lbs (d : RawSnapshot) : List (String × ℚ) := d.balance_sheet.headD []

/-- The most recent income-statement column (source line 629). -/
def lfin (d : RawSnapshot) : List (String × ℚ) := d.financials.headD []

/-- The most recent cash-flow column (source line 630). -/
def lcf (d : RawSnapshot) : List (String × ℚ) := d.cash_flow.headD []

/-- Extracted total assets (source line 632). -/
def assetsOf (d : RawSnapshot) : ℚ :=
  (gv (lbs d) "Total Assets" (infoGet d.info "totalAssets")).toRat

/-- Extracted total stockholder equity (source line 633). -/
def equityOf (d : RawSnapshot) : ℚ :=
  (gv (lbs d) "Total Stockholder Equity" (infoGet d.info "totalStockholderEquity")).toRat

/-- Extracted current assets (source line 634). -/
def currAOf (d : RawSnapshot) : ℚ := gvQ (lbs d) "Current Assets" 0

/-- Extracted current liabilities (source line 635). -/
def currLOf (d : RawSnapshot) : ℚ := gvQ (lbs d) "Current Liabilities" 0

/-- Extracted retained earnings (source line 636). -/
def retainedOf (d : RawSnapshot) : ℚ := gvQ (lbs d) "Retained Earnings" 0

/-- Extracted total debt: the "Total Debt" line item, or, when that is
absent or zero, long-term plus short-long-term debt (source lines 637-638,
Python or). -/
def debtOf (d : RawSnapshot) : ℚ :=
  qOr (gvQ (lbs d) "Total Debt" 0)
    (gvQ (lbs d) "Long Term Debt" 0 + gvQ (lbs d) "Short Long Term Debt" 0)

/-- Extracted net income (source line 639). -/
def netIncOf (d : RawSnapshot) : ℚ := gvQ (lfin d) "Net Income" 0

/-- Extracted total revenue (source line 640). -/
def revenueOf (d : RawSnapshot) : ℚ := gvQ (lfin d) "Total Revenue" 0

/-- Extracted EBIT (source line 641). -/
def ebitOf (d : RawSnapshot) : ℚ := gvQ (lfin d) "EBIT" 0

/-- Extracted operating cash flow (source line 642). -/
def ocfOf (d : RawSnapshot) : ℚ :=
  gvQ (lcf d) "Total Cash From Operating Activities" 0

/-- Extracted capital expenditures (source line 643). -/
def capexOf (d : RawSnapshot) : ℚ := gvQ (lcf d) "Capital Expenditures" 0

/-- Extracted free cash flow: the reported line item, or, when absent or
zero, ocf minus the absolute capital expenditure when ocf is nonzero
(source line 644). -/
def fcfOf (d : RawSnapshot) : ℚ :=
  qOr (gvQ (lcf d) "Free Cash Flow" 0)
    (if ocfOf d ≠ 0 then ocfOf d - |capexOf d| else 0)

/-- Market capitalization: info.get("marketCap", 0) or 0 (source line 646). -/
def mktCapOf (d : RawSnapshot) : PyVal := pyOr (infoGet d.info "marketCap") (.pint 0)

/-- The closing-price series of the history. -/
def closesOf (d : RawSnapshot) : List ℚ := d.history.map (fun b => b.close)

/-- Daily simple returns, Close.pct_change().dropna() (source line 647):
one value per consecutive pair of closes.  A zero previous close yields
+Infinity (new close positive) or -Infinity (new close negative), which
dropna keeps; a zero-over-zero pair yields NaN, which dropna removes
(dropna also removes the leading NaN of pct_change, which is why the
series starts at the second close). -/
def returnsOf (closes : List ℚ) : List PyVal :=
  (closes.zip closes.tail).filterMap (fun pc =>
    if pc.1 = 0 then
      if 0 < pc.2 then some (.pinf true)
      else if pc.2 < 0 then some (.pinf false)
      else none
    else some (.pfloat ((pc.2 - pc.1) / pc.1)))

/-- The last n elements of a list (the trailing rolling window). -/
def lastN (n : ℕ) (l : List α) : List α := l.drop (l.length - n)

/-- Arithmetic mean of a list of rationals. -/
def listMean (l : List ℚ) : ℚ := l.sum / l.length

/-- series.rolling(w).mean().iloc[-1]: the mean of the last w elements
when at least w elements exist, NaN (none) otherwise. -/
def lastWindowMean (w : ℕ) (l : List ℚ) : Option ℚ :=
  if w ≤ l.length then some ((lastN w l).sum / w) else none

/-- Consecutive close-to-close differences, Close.diff() without its
leading NaN. -/
def realDiffs (closes : List ℚ) : List ℚ :=
  (closes.zip closes.tail).map (fun pc => pc.2 - pc.1)

/-- Close.diff() (source line 671): NaN (none) at the first position,
then the consecutive differences. -/
def diffsOpt (closes : List ℚ) : List (Option ℚ) :=
  if closes.isEmpty then [] else none :: (realDiffs closes).map some

/-- delta.where(delta > 0, 0) (source line 672): the positive part of
each difference; the leading NaN compares false and becomes 0. -/
def gainsOf (closes : List ℚ) : List ℚ :=
  (diffsOpt closes).map (fun od =>
    match od with
    | none => 0
    | some dv => if 0 < dv then dv else 0)

/-- (-delta.where(delta < 0, 0)) (source line 673): the negative part of
each difference, negated; the leading NaN compares false and becomes 0. -/
def lossesOf (closes : List ℚ) : List ℚ :=
  (diffsOpt closes).map (fun od =>
    match od with
    | none => 0
    | some dv => if dv < 0 then -dv else 0)

/-- The last entry of the RSI series (source lines 674-675): average gain
divided by average loss with a zero average loss replaced by NaN (none)
before the division, then 100 - 100/(1+rs); none propagates NaN. -/
def rsiLast (closes : List ℚ) : Option ℚ :=
  match lastWindowMean 14 (gainsOf closes), lastWindowMean 14 (lossesOf closes) with
  | some g, some l => if l = 0 then none else some (100 - 100 / (1 + g / l))
  | _, _ => none

/-- The RSI_14 feature value (source line 676): the last RSI entry when
it exists and is not NaN, the int default 50 otherwise. -/
def rsiPV (closes : List ℚ) : PyVal :=
  match rsiLast closes with
  | some v => .pfloat v
  | none => .pint 50

/-- The bearish-crossover flag (source lines 663-669): 1 when both the
50- and 200-period trailing moving averages exist and the 50-period one
is strictly below, 0 otherwise. -/
def deathCross (closes : List ℚ) : ℤ :=
  match lastWindowMean 50 closes, lastWindowMean 200 closes with
  | some a, some b => if a < b then 1 else 0
  | _, _ => 0

/-- Price_Range_% (source lines 651-653): (High-Low)/Open*100 on the last
bar when the history is nonempty and its open is positive, else 0. -/
def prPct (hist : List PriceBar) : ℚ :=
  match hist.getLast? with
  | some b => if 0 < b.open_ then (b.high - b.low) / b.open_ * 100 else 0
  | none => 0

/-- True range (source lines 655-661): on the last bar, the maximum of
High-Low, |High - previous Close| and |Low - previous Close| when at
least two bars exist, else 0. -/
def trOf (hist : List PriceBar) : ℚ :=
  match lastN 2 hist with
  | [p, c] => max (c.high - c.low) (max |c.high - p.close| |c.low - p.close|)
  | _ => 0

/-- 20-period rate of change (source lines 678-680): percent change from
the close 20 trading days back when the history is long enough and that
close is nonzero, else 0. -/
def roc20Of (closes : List ℚ) : ℚ :=
  if 20 < closes.length then
    let prev := closes.getD (closes.length - 21) 0
    let lastc := closes.getD (closes.length - 1) 0
    if prev ≠ 0 then (lastc - prev) / prev * 100 else 0
  else 0

/-- The Altman-Z-style health score (source lines 690-694): weighted sum
of working-capital, retained-earnings, EBIT, equity-to-debt and revenue
components, 0 when total assets are not positive. -/
def altmanZ (d : RawSnapshot) : ℚ :=
  if 0 < assetsOf d then
    1.2 * (currAOf d - currLOf d) / assetsOf d
      + 1.4 * retainedOf d / assetsOf d
      + 3.3 * ebitOf d / assetsOf d
      + (if 0 < debtOf d then 0.6 * equityOf d / debtOf d else 0)
      + 1.0 * revenueOf d / assetsOf d
  else 0

/-- calculate_all_metrics (source lines 615-731): the full feature
extraction, returning the feature dictionary in its literal insertion
order.  annVol abstracts rets.tail(20).std()*sqrt(252)*100 on an
all-finite window, whose value is irrational and constrained by no
verified property; a window containing an Infinity makes the std NaN and
the isnan guard then exports the int 0.  The last return is never NaN
(dropna removed NaNs), so its isnan guard is a no-op, but it can be an
Infinity, which flows into Daily_Return_% unguarded.  today is the
datetime.now() observation. -/
def calculateAllMetrics (annVol : List ℚ → ℚ) (today : PyDate)
    (d : RawSnapshot) : List (String × PyVal) :=
  let hist := d.history
  let cls := closesOf d
  let rets := returnsOf cls
  let assets := assetsOf d
  let equity := equityOf d
  let debt := debtOf d
  let netInc := netIncOf d
  let revenue := revenueOf d
  let ocf := ocfOf d
  [("Market_Cap_USD", mktCapOf d),
   ("Low", match hist.getLast? with
     | some b => .pfloat b.low
     | none => .pint 0),
   ("Volume", if hist.isEmpty then .pint 0
     else .pfloat (listMean (hist.map (fun b => b.volume)))),
   ("Daily_Return_%", match rets.getLast? with
     | some (.pfloat r) => .pfloat (r * 100)
     | some (.pint n) => .pfloat ((n : ℚ) * 100)
     | some (.pinf b) => .pinf b
     | none => .pint 0),
   ("Price_Range_%", .pfloat (prPct hist)),
   ("ROA_%", if 0 < assets then .pfloat (netInc / assets * 100) else .pint 0),
   ("Equity_Ratio", if 0 < assets then .pfloat (equity / assets) else .pint 0),
   ("Asset_Turnover", if 0 < assets then .pfloat (revenue / assets) else .pint 0),
   ("OCF_to_Debt", if 0 < debt then .pfloat (ocf / debt) else .pint 0),
   ("Altman_Z_Score", .pfloat (altmanZ d)),
   ("Death_Cross", .pint (deathCross cls)),
   ("True_Range", .pfloat (trOf hist)),
   ("RSI_14", rsiPV cls),
   ("US_10Y", .pint 0),
   ("Oil_Volatility_20D", .pint 0),
   ("Oil_Below_60", .pint 0),
   ("Oil_Below_40", .pint 0),
   ("Brent_Change_%", .pint 0),
   ("VIX_Change_%", .pint 0),
   ("Very_High_VIX", .pint 0),
   ("Strong_Dollar", .pint 0),
   ("SAR_USD", .pint 0),
   ("KWD_USD", .pint 0),
   ("QAR_USD_Volatility_20D", .pint 0),
   ("BHD_USD_Volatility_20D", .pint 0),
   ("Gulf_Crisis_End", .pint 0),
   ("Is_Month_End", .pint (if 25 ≤ today.day then 1 else 0)),
   ("Very_High_Governance_Risk", .pint 0),
   ("Has_Controversy", .pint 0),
   ("Poor_Governance", .pint 0),
   ("Operating Cf_M", .pfloat (ocf / 1000000)),
   ("Free Cf_M", .pfloat (fcfOf d / 1000000)),
   ("Debt_to_Equity", if 0 < equity then .pfloat (debt / equity) else .pint 0),
   ("ROE_%", if 0 < equity then .pfloat (netInc / equity * 100) else .pint 0),
   ("Net_Profit_Margin_%", if 0 < revenue then .pfloat (netInc / revenue * 100) else .pint 0),
   ("Volatility_20",
     if 20 ≤ rets.length then
       if (lastN 20 rets).all PyVal.isFinite then
         .pfloat (annVol ((lastN 20 rets).map PyVal.toRat))
       else .pint 0
     else .pfloat 0),
   ("ROC_20", .pfloat (roc20Of cls)),
   ("Egypt_FX_Crisis", .pint 0),
   ("EGP_USD_Change_%", .pint 0),
   ("Pandemic_Recession", .pint 0),
   ("Environment_Score", .pint 50),
   ("Social_Score", .pint 50),
   ("Young_Company", .pint 0),
   ("Low_Institutional_Ownership", .pint 0),
   ("Month_x", .pint today.month)]

/-- The empty snapshot: no statement columns, empty info, empty history
(the degraded-mode scenario of the spec). -/
def emptySnapshot : RawSnapshot :=
  { balance_sheet := [], financials := [], cash_flow := [], info := [], history := [] }


/-- Claim C1, counterexample: the canonical feature list of the source
has 45 names, not 44 — the extraction (here on the degraded empty
snapshot) produces a 45-entry feature vector, so no snapshot yields
exactly 44 names. -/
theorem featureVector_forty_four_cex :
    ((calculateAllMetrics (fun _ => 0) ⟨25, 10⟩ emptySnapshot).map Prod.fst).length = 45
      ∧ (45 : ℕ) ≠ 44 :=
  ⟨rfl, by decide⟩

/-- lookup success implies membership in the association list. -/
lemma lookup_mem {a : Type} {b : Type} [BEq a] [LawfulBEq a]
    (l : List (a × b)) (k : a) (v : b) (h : l.lookup k = some v) : (k, v) ∈ l := by
  induction l with
  | nil => simp [List.lookup] at h
  | cons p t ih =>
    rw [List.lookup] at h
    rcases hkp : (k == p.1) with _ | _
    · rw [hkp] at h
      exact List.mem_cons_of_mem _ (ih h)
    · rw [hkp] at h
      have hk : k = p.1 := by
        exact eq_of_beq hkp
      have hv : p.2 = v := by
        injection h
      rw [hk, ← hv]
      exact List.mem_cons_self _ _

/-- The market-cap value of a snapshot whose info mapping is
finite-valued is finite. -/
lemma mktCapOf_finite (d : RawSnapshot)
    (hinfo : ∀ kv ∈ d.info, kv.2.isFinite = true) :
    (mktCapOf d).isFinite = true := by
  unfold mktCapOf pyOr
  split
  · rfl
  · unfold infoGet
    cases hL : List.lookup "marketCap" d.info with
    | none => rfl
    | some w => exact hinfo _ (lookup_mem d.info "marketCap" w hL)

/-- A two-bar history whose first close is 0: the single retained return
is (1 - 0)/0, the float +Infinity. -/
def zeroPrevSnapshot : RawSnapshot :=
  { balance_sheet := [], financials := [], cash_flow := [], info := [],
    history := [{ open_ := 1, high := 1, low := 1, close := 0, volume := 1 },
                { open_ := 1, high := 1, low := 1, close := 1, volume := 1 }] }

/-- Claim C1, amended: for every volatility statistic, observation date
and raw snapshot (including one with empty balance-sheet, income and
cash-flow frames), the feature extraction produces a feature vector whose
names are exactly the canonical ones — 45 of them, duplicate-free — in
the fixed canonical order, and the extraction is total (no failure path
exists).  Values are however not all finite: on a snapshot whose info
mapping is finite-valued, every feature except Daily_Return_% is finite,
but Daily_Return_% is exported as the float +Infinity when the previous
close of the last retained return is zero (pct_change divides by it and
the isnan guard does not catch an Infinity), as the zeroPrevSnapshot
conjunct exhibits. -/
theorem calculateAllMetrics_keys :
    ∀ (annVol : List ℚ → ℚ) (today : PyDate) (d : RawSnapshot),
      ((calculateAllMetrics annVol today d).map Prod.fst = SELECTED_FEATURES
        ∧ SELECTED_FEATURES.length = 45 ∧ SELECTED_FEATURES.Nodup)
      ∧ ((∀ kv ∈ d.info, kv.2.isFinite = true) →
          ∀ k v, (k, v) ∈ calculateAllMetrics annVol today d →
            k ≠ "Daily_Return_%" → v.isFinite = true)
      ∧ (calculateAllMetrics annVol today zeroPrevSnapshot).lookup "Daily_Return_%"
          = some (.pinf true) := by
  intro annVol today d
  refine ⟨⟨rfl, rfl, by decide⟩, ?_, rfl⟩
  intro hinfo k v hm hk
  simp only [calculateAllMetrics, List.mem_cons, List.not_mem_nil, or_false] at hm
  rcases hm with h|h|h|h|h|h|h|h|h|h|h|h|h|h|h|h|h|h|h|h|h|h|h|h|h|h|h|h|h|h|h|h|h|h|h|h|h|h|h|h|h|h|h|h|h
  all_goals rw [Prod.mk.injEq] at h
  all_goals obtain ⟨rfl, rfl⟩ := h
  all_goals
    first
    | exact absurd rfl hk
    | rfl
    | (split <;> rfl)
    | (split <;> first | rfl | (split <;> rfl))
    | (unfold rsiPV ; split <;> rfl)
    | exact mktCapOf_finite d hinfo

/-- Witness for C1: the finiteness hypotheses discharged at the empty
snapshot (whose info mapping is vacuously finite-valued) for the US_10Y
feature. -/
theorem calculateAllMetrics_keys_witness :
    PyVal.isFinite (.pint 0) = true :=
  (calculateAllMetrics_keys (fun _ => 0) (PyDate.mk 25 10) emptySnapshot).2.1
    (by simp [emptySnapshot]) "US_10Y" (.pint 0)
    (by simp [calculateAllMetrics]) (by decide)


/-- Claim C3: zero-guard laws of the extraction.  When the extracted
total assets are 0, Asset_Turnover, Equity_Ratio, ROA_% and
Altman_Z_Score are all 0; when the extracted equity is 0, Debt_to_Equity
and ROE_% are 0; when the extracted debt is 0, OCF_to_Debt is 0.  The
embedding is a total function, so no division error is raised on any
snapshot. -/
theorem zeroGuard_laws :
    ∀ (annVol : List ℚ → ℚ) (today : PyDate) (d : RawSnapshot),
      (assetsOf d = 0 →
        ((calculateAllMetrics annVol today d).lookup "Asset_Turnover").map PyVal.toRat = some 0
          ∧ ((calculateAllMetrics annVol today d).lookup "Equity_Ratio").map PyVal.toRat = some 0
          ∧ ((calculateAllMetrics annVol today d).lookup "ROA_%").map PyVal.toRat = some 0
          ∧ ((calculateAllMetrics annVol today d).lookup "Altman_Z_Score").map PyVal.toRat = some 0)
      ∧ (equityOf d = 0 →
        ((calculateAllMetrics annVol today d).lookup "Debt_to_Equity").map PyVal.toRat = some 0
          ∧ ((calculateAllMetrics annVol today d).lookup "ROE_%").map PyVal.toRat = some 0)
      ∧ (debtOf d = 0 →
        ((calculateAllMetrics annVol today d).lookup "OCF_to_Debt").map PyVal.toRat = some 0) := by
  intro annVol today d
  have eAT : (calculateAllMetrics annVol today d).lookup "Asset_Turnover"
      = some (if 0 < assetsOf d then PyVal.pfloat (revenueOf d / assetsOf d) else .pint 0) := rfl
  have eER : (calculateAllMetrics annVol today d).lookup "Equity_Ratio"
      = some (if 0 < assetsOf d then PyVal.pfloat (equityOf d / assetsOf d) else .pint 0) := rfl
  have eROA : (calculateAllMetrics annVol today d).lookup "ROA_%"
      = some (if 0 < assetsOf d then PyVal.pfloat (netIncOf d / assetsOf d * 100) else .pint 0) := rfl
  have eZ : (calculateAllMetrics annVol today d).lookup "Altman_Z_Score"
      = some (.pfloat (altmanZ d)) := rfl
  have eDE : (calculateAllMetrics annVol today d).lookup "Debt_to_Equity"
      = some (if 0 < equityOf d then PyVal.pfloat (debtOf d / equityOf d) else .pint 0) := rfl
  have eROE : (calculateAllMetrics annVol today d).lookup "ROE_%"
      = some (if 0 < equityOf d then PyVal.pfloat (netIncOf d / equityOf d * 100) else .pint 0) := rfl
  have eO2D : (calculateAllMetrics annVol today d).lookup "OCF_to_Debt"
      = some (if 0 < debtOf d then PyVal.pfloat (ocfOf d / debtOf d) else .pint 0) := rfl
  refine ⟨fun h => ?_, fun h => ?_, fun h => ?_⟩
  · rw [eAT, eER, eROA, eZ]
    simp [h, altmanZ, PyVal.toRat]
  · rw [eDE, eROE]
    simp [h, PyVal.toRat]
  · rw [eO2D]
    simp [h, PyVal.toRat]

/-- Witness for C3: the empty snapshot has extracted assets, equity and
debt all 0, and the guarded ratios all evaluate to 0 there. -/
theorem zeroGuard_laws_witness :
    assetsOf emptySnapshot = 0
      ∧ ((calculateAllMetrics (fun _ => 0) ⟨25, 10⟩ emptySnapshot).lookup "Asset_Turnover").map PyVal.toRat = some 0
      ∧ ((calculateAllMetrics (fun _ => 0) ⟨25, 10⟩ emptySnapshot).lookup "Debt_to_Equity").map PyVal.toRat = some 0
      ∧ ((calculateAllMetrics (fun _ => 0) ⟨25, 10⟩ emptySnapshot).lookup "OCF_to_Debt").map PyVal.toRat = some 0 := by
  have h0 : assetsOf emptySnapshot = 0 := by
    simp [assetsOf, gv, infoGet, lbs, emptySnapshot, PyVal.toRat]
  have h1 : equityOf emptySnapshot = 0 := by
    simp [equityOf, gv, infoGet, lbs, emptySnapshot, PyVal.toRat]
  have h2 : debtOf emptySnapshot = 0 := by
    simp [debtOf, qOr, gvQ, lbs, emptySnapshot]
  exact ⟨h0,
    ((zeroGuard_laws (fun _ => 0) ⟨25, 10⟩ emptySnapshot).1 h0).1,
    ((zeroGuard_laws (fun _ => 0) ⟨25, 10⟩ emptySnapshot).2.1 h1).1,
    (zeroGuard_laws (fun _ => 0) ⟨25, 10⟩ emptySnapshot).2.2 h2⟩

/-- Claim C8: the extraction is deterministic — it is a pure function of
the snapshot, the observation date and the supplied volatility statistic,
so two calls on equal inputs produce identical feature vectors and the
result depends on nothing else. -/
theorem calculateAllMetrics_deterministic :
    ∀ (f g : List ℚ → ℚ) (t u : PyDate) (d e : RawSnapshot),
      f = g → t = u → d = e →
      calculateAllMetrics f t d = calculateAllMetrics g u e := by
  intro f g t u d e hf ht hd
  rw [hf, ht, hd]

/-- Witness for C8: the two-calls instance at concrete inputs. -/
theorem calculateAllMetrics_deterministic_witness :
    calculateAllMetrics (fun _ => 0) ⟨25, 10⟩ emptySnapshot
      = calculateAllMetrics (fun _ => 0) ⟨25, 10⟩ emptySnapshot :=
  calculateAllMetrics_deterministic _ _ _ _ _ _ rfl rfl rfl

/-- The template selector of render_explanation (source lines 1022, 1055,
1084, 1110): the Critical template requires pred == 1 and prob >= 0.7,
the High template pred == 1 and prob >= 0.5, the Medium template
prob >= 0.3, and the Low template is the final else. -/
def templateOf (pred : ℤ) (prob : ℚ) : Tier :=
  if pred = 1 ∧ 7/10 ≤ prob then .Critical
  else if pred = 1 ∧ 1/2 ≤ prob then .High
  else if 3/10 ≤ prob then .Medium
  else .Low

/-- Claim C4, counterexample: with predicted label 0 and probability 0.8
the tier policy assigns Critical but the narrative composer renders the
Medium template — template selection is not a function of the tier alone. -/
theorem template_matches_tier_cex :
    templateOf 0 (8/10) = .Medium ∧ riskTier (8/10) = .Critical
      ∧ Tier.Medium ≠ Tier.Critical := by
  refine ⟨?_, ?_, by decide⟩
  · norm_num [templateOf]
  · norm_num [riskTier]

/-- Claim C4, amended: the composer always renders exactly one of the
four templates (the selector is a total function into the four tiers);
when the predicted label is 1 the template coincides with the tier
assigned by the tier policy, and when the label is not 1 the Critical and
High templates are unreachable — the Medium template is rendered iff
prob >= 0.3 and the Low template otherwise. -/
theorem template_selection :
    ∀ (pred : ℤ) (prob : ℚ),
      (pred = 1 → templateOf pred prob = riskTier prob)
        ∧ (pred ≠ 1 → templateOf pred prob = if 3/10 ≤ prob then .Medium else .Low) := by
  intro pred prob
  constructor
  · intro h
    subst h
    unfold templateOf riskTier
    split_ifs <;> simp_all <;> linarith
  · intro h
    unfold templateOf
    split_ifs <;> simp_all

/-- Witness for C4: label 1 with probability 0.62 renders the High
template, agreeing with the tier policy; label 0 with the same
probability renders the Medium template. -/
theorem template_selection_witness :
    templateOf 1 (62/100) = riskTier (62/100)
      ∧ templateOf 0 (62/100) = (if (3 : ℚ)/10 ≤ 62/100 then Tier.Medium else .Low) :=
  ⟨(template_selection 1 (62/100)).1 rfl,
   (template_selection 0 (62/100)).2 (by decide)⟩

/-- An opaque unpickled Python object, abstracted to the one capability
the loader inspects: whether it exposes predict_proba.  Objects stored in
an artifact dict are modelled as truthy. -/
structure PyObj where
  hasPredictProba : Bool
deriving DecidableEq

/-- The artifact shapes handled by load_model_resources: a raw
estimator-like object, or the legacy dict-wrapped format. -/
inductive ModelPickle where
| obj (o : PyObj)
| dict (entries : List (String × PyObj))
deriving DecidableEq

/-- The model-resolution logic of load_model_resources (source lines
534-551): a raw object exposing predict_proba is used directly; a dict is
probed for "final_model", then "best_model" — both taken WITHOUT a
capability check, mirroring the source's raw.get chain — then for its
first value exposing predict_proba, and only when all three fail is the
fatal dict error raised; any other shape is the fatal type error. -/
def resolveModel : ModelPickle → Except String PyObj
| .obj o =>
    if o.hasPredictProba then .ok o
    else .error "Unexpected model type"
| .dict es =>
    match es.lookup "final_model" with
    | some v => .ok v
    | none =>
      match es.lookup "best_model" with
      | some v => .ok v
      | none =>
        match es.find? (fun kv => kv.2.hasPredictProba) with
        | some kv => .ok kv.2
        | none => .error "The model pickle is a dict but no estimator was found inside it"

/-- Claim C7 (code defect): a dict-wrapped artifact whose "final_model"
entry lacks predict_proba is accepted without any error — the loader
silently continues with a model that cannot produce probabilities —
although the same loader raises the fatal error whenever the dict holds
no "final_model"/"best_model" key and no predict_proba-capable value
(third conjunct), which is the behaviour the claim describes. -/
theorem resolveModel_missing_capability_bug :
    resolveModel (.dict [("final_model", ⟨false⟩)]) = .ok ⟨false⟩
      ∧ (PyObj.mk false).hasPredictProba = false
      ∧ (∀ msg, resolveModel (.dict [("final_model", ⟨false⟩)]) ≠ .error msg)
      ∧ resolveModel (.dict [("some_key", ⟨false⟩)])
          = .error "The model pickle is a dict but no estimator was found inside it" := by
  refine ⟨rfl, rfl, ?_, rfl⟩
  intro msg h
  have e : resolveModel (.dict [("final_model", ⟨false⟩)]) = .ok ⟨false⟩ := rfl
  rw [e] at h
  exact Except.noConfusion h

/-- A 15-bar price history with constant prices: every daily change is 0,
so the 14-period average loss is 0. -/
def flatSnapshot : RawSnapshot :=
  { balance_sheet := [], financials := [], cash_flow := [], info := [],
    history := List.replicate 15 ⟨1, 1, 1, 1, 1⟩ }

/-- Claim C10: when the price history has at least 15 closes and its last
14 daily price changes are all non-negative, the 14-period average loss
is 0, the division is blocked by the NaN replacement (rsiLast is none),
and the RSI_14 feature falls back to the neutral int default 50. -/
theorem rsi_allGains_neutral :
    ∀ (annVol : List ℚ → ℚ) (today : PyDate) (d : RawSnapshot),
      15 ≤ d.history.length →
      (∀ x ∈ lastN 14 (realDiffs (closesOf d)), 0 ≤ x) →
      rsiLast (closesOf d) = none
        ∧ (calculateAllMetrics annVol today d).lookup "RSI_14" = some (.pint 50) := by
  intro annVol today d hlen hnn
  have hclen : (closesOf d).length = d.history.length := by simp [closesOf]
  have hrlen : (realDiffs (closesOf d)).length = (closesOf d).length - 1 := by
    simp [realDiffs]
  have hd : diffsOpt (closesOf d) = none :: (realDiffs (closesOf d)).map some := by
    cases h : closesOf d with
    | nil => rw [h] at hclen; simp at hclen; omega
    | cons a t => simp [diffsOpt, h, realDiffs]
  have hl : lossesOf (closesOf d)
      = 0 :: (realDiffs (closesOf d)).map (fun dv => if dv < 0 then -dv else 0) := by
    simp [lossesOf, hd, List.map_map, Function.comp]
  have hg : gainsOf (closesOf d)
      = 0 :: (realDiffs (closesOf d)).map (fun dv => if 0 < dv then dv else 0) := by
    simp [gainsOf, hd, List.map_map, Function.comp]
  have hloslen : (lossesOf (closesOf d)).length = (closesOf d).length := by
    rw [hl]; simp [hrlen]; omega
  have hgainlen : (gainsOf (closesOf d)).length = (closesOf d).length := by
    rw [hg]; simp [hrlen]; omega
  have hcut : ∀ (f : ℚ → ℚ),
      lastN 14 (0 :: (realDiffs (closesOf d)).map f)
        = (lastN 14 (realDiffs (closesOf d))).map f := by
    intro f
    unfold lastN
    rw [List.length_cons, List.length_map]
    have h15 : 15 ≤ (closesOf d).length := by omega
    have : (realDiffs (closesOf d)).length + 1 - 14
        = ((realDiffs (closesOf d)).length - 14) + 1 := by omega
    rw [this, List.drop_succ_cons, List.map_drop]
  have hsum : ((lastN 14 (realDiffs (closesOf d))).map (fun dv => if dv < 0 then -dv else 0)).sum
      = 0 := by
    apply List.sum_eq_zero
    intro x hx
    rw [List.mem_map] at hx
    obtain ⟨dv, hdv, hfx⟩ := hx
    have hge := hnn dv hdv
    rw [← hfx, if_neg (by linarith)]
  have hlmean : lastWindowMean 14 (lossesOf (closesOf d)) = some 0 := by
    unfold lastWindowMean
    rw [if_pos (by omega : 14 ≤ (lossesOf (closesOf d)).length)]
    rw [hl, hcut, hsum]
    norm_num
  have hgmean : ∃ g, lastWindowMean 14 (gainsOf (closesOf d)) = some g := by
    refine ⟨(lastN 14 (gainsOf (closesOf d))).sum / 14, ?_⟩
    unfold lastWindowMean
    rw [if_pos (by omega : 14 ≤ (gainsOf (closesOf d)).length)]
    norm_num
  obtain ⟨g, hgm⟩ := hgmean
  have hrsi : rsiLast (closesOf d) = none := by
    unfold rsiLast
    rw [hgm, hlmean]
    simp
  refine ⟨hrsi, ?_⟩
  have e : (calculateAllMetrics annVol today d).lookup "RSI_14"
      = some (rsiPV (closesOf d)) := rfl
  rw [e]
  unfold rsiPV
  rw [hrsi]

/-- Witness for C10: a 15-bar constant-price history has all 14 trailing
changes equal to 0 (non-negative) and its RSI_14 feature is the int 50. -/
theorem rsi_allGains_neutral_witness :
    rsiLast (closesOf flatSnapshot) = none
      ∧ (calculateAllMetrics (fun _ => 0) ⟨25, 10⟩ flatSnapshot).lookup "RSI_14"
          = some (.pint 50) :=
  rsi_allGains_neutral (fun _ => 0) ⟨25, 10⟩ flatSnapshot (by simp [flatSnapshot])
    (by
      intro x hx
      simp [flatSnapshot, closesOf, realDiffs, lastN, List.replicate] at hx
      simp [hx])

/-- The per-category attribution sum of shap_category_chart (source lines
808-814): for each category, the sum of the contribution values at the
canonical indices of that category's features (those present in the
canonical list, mirroring the feat_idx membership test). -/
def catSum (vals : List ℚ) (flist : List String) : ℚ :=
  ((flist.filter (fun f => SELECTED_FEATURES.contains f)).map
    (fun f => vals.getD (SELECTED_FEATURES.indexOf f) 0)).sum

/-- cat_vals (source lines 811-814): the six category sums in category
order. -/
def categorySums (vals : List ℚ) : List (String × ℚ) :=
  FEATURE_CATEGORIES.map (fun c => (c.1, catSum vals c.2))

/-- The concatenation of the canonical indices used by the six category
sums, in aggregation order. -/
def allCatIdx : List ℕ :=
  FEATURE_CATEGORIES.flatMap (fun c =>
    (c.2.filter (fun f => SELECTED_FEATURES.contains f)).map
      (fun f => SELECTED_FEATURES.indexOf f))

lemma sum_over_range_getD (vals : List ℚ) :
    ((List.range vals.length).map (fun i => vals.getD i 0)).sum = vals.sum := by
  induction vals with
  | nil => simp
  | cons a t ih =>
    rw [List.length_cons, List.range_succ_eq_map, List.map_cons, List.map_map]
    simp only [Function.comp_def, Nat.succ_eq_add_one, List.getD_cons_zero,
      List.getD_cons_succ, List.sum_cons]
    rw [ih]

lemma catSums_total (vals : List ℚ) (L : List (String × List String)) :
    ((L.map (fun c => catSum vals c.2)).sum)
      = ((L.flatMap (fun c =>
          (c.2.filter (fun f => SELECTED_FEATURES.contains f)).map
            (fun f => SELECTED_FEATURES.indexOf f))).map (fun i => vals.getD i 0)).sum := by
  induction L with
  | nil => simp
  | cons c L ih =>
    rw [List.map_cons, List.sum_cons, List.flatMap_cons, List.map_append, List.sum_append, ih]
    congr 1
    unfold catSum
    rw [List.map_map]
    rfl

/-- Claim C5, counterexample: the six category feature lists join to 45
features and the canonical list holds 45 names — not 44 as the claim
asserts. -/
theorem categorySums_fortyfour_cex :
    (FEATURE_CATEGORIES.flatMap (fun c => c.2)).length = 45
      ∧ SELECTED_FEATURES.length = 45 ∧ (45 : ℕ) ≠ 44 :=
  ⟨rfl, rfl, by decide⟩

/-- Claim C5, amended: the six category feature sets are pairwise
disjoint and jointly a permutation of the 45-name canonical list (every
category feature is canonical, so the aggregation's membership filter
drops nothing), and for every 45-entry contribution vector the sum of the
six category sums equals the sum of all 45 per-feature contributions —
no contribution is dropped or double-counted. -/
theorem categorySums_partition :
    ∀ vals : List ℚ, vals.length = 45 →
      (∀ c ∈ FEATURE_CATEGORIES, c.2.filter (fun f => SELECTED_FEATURES.contains f) = c.2)
        ∧ List.Pairwise (fun l1 l2 => ∀ f ∈ l1, f ∉ l2) (FEATURE_CATEGORIES.map (fun c => c.2))
        ∧ List.Perm (FEATURE_CATEGORIES.flatMap (fun c => c.2)) SELECTED_FEATURES
        ∧ ((categorySums vals).map Prod.snd).sum = vals.sum := by
  intro vals hlen
  refine ⟨by decide, by decide, by decide, ?_⟩
  have hperm : List.Perm allCatIdx (List.range 45) := by decide
  have h1 : ((categorySums vals).map Prod.snd).sum
      = ((FEATURE_CATEGORIES.map (fun c => catSum vals c.2)).sum) := by
    unfold categorySums
    rw [List.map_map]
    rfl
  rw [h1, catSums_total vals FEATURE_CATEGORIES]
  have h2 : ((allCatIdx.map (fun i => vals.getD i 0)).sum)
      = (((List.range 45).map (fun i => vals.getD i 0)).sum) :=
    (hperm.map (fun i => vals.getD i 0)).sum_eq
  have h3 : (List.range 45) = List.range vals.length := by rw [hlen]
  unfold allCatIdx at h2
  rw [h2, h3, sum_over_range_getD]

/-- Witness for C5: the all-ones 45-entry contribution vector has
category sums adding to 45, the sum of all contributions. -/
theorem categorySums_partition_witness :
    ((categorySums (List.replicate 45 (1 : ℚ))).map Prod.snd).sum
      = (List.replicate 45 (1 : ℚ)).sum :=
  (categorySums_partition (List.replicate 45 1) (by simp)).2.2.2

/-- The canonical tie-break order the claim asserts: i outranks j when
its absolute contribution is strictly larger, or equal with i first in
canonical order. -/
def absKeyLe (vals : List ℚ) (i j : ℕ) : Prop :=
  |vals.getD j 0| < |vals.getD i 0|
    ∨ (|vals.getD i 0| = |vals.getD j 0| ∧ i ≤ j)

instance absKeyLe.instDecidable (vals : List ℚ) : DecidableRel (absKeyLe vals) := by
  intro i j
  unfold absKeyLe
  infer_instance

/-- What the source's ranking guarantees (source line 946):
df.reindex on the index of SHAP.abs().sort_values(ascending=False)
orders all feature indices by absolute contribution descending using the
default numpy quicksort kind, which is unstable: the order of exact ties
is unspecified, so any list that is a permutation of all indices and
descending in absolute contribution is a possible ranking. -/
def IsRankingOf (vals : List ℚ) (l : List ℕ) : Prop :=
  List.Perm l (List.range vals.length)
    ∧ List.Pairwise (fun i j => |vals.getD j 0| ≤ |vals.getD i 0|) l

instance IsRankingOf.instDecidable (vals : List ℚ) (l : List ℕ) :
    Decidable (IsRankingOf vals l) := by
  unfold IsRankingOf
  infer_instance

/-- top_pos (source line 947): the first three positive-contribution
entries of a ranking. -/
def topPosOf (vals : List ℚ) (l : List ℕ) : List ℕ :=
  (l.filter (fun i => decide (0 < vals.getD i 0))).take 3

/-- top_neg (source line 948): the first three negative-contribution
entries of a ranking. -/
def topNegOf (vals : List ℚ) (l : List ℕ) : List ℕ :=
  (l.filter (fun i => decide (vals.getD i 0 < 0))).take 3

/-- top_all (source line 949): the primary driver, the ranking's head. -/
def primaryOf (l : List ℕ) : Option ℕ := l.head?

/-- Claim C6, counterexample: on the two-feature contribution vector
[2, 2] the list [1, 0] is a possible ranking — a permutation of all
indices, descending in absolute contribution — yet its exact tie is not
in canonical order, and it makes feature 1, not the canonically first
feature 0, the primary driver: the program's unstable sort guarantees no
canonical tie-break. -/
theorem topAttribution_canonical_ties_cex :
    IsRankingOf [(2 : ℚ), 2] [1, 0]
      ∧ ¬ List.Pairwise (absKeyLe [(2 : ℚ), 2]) [1, 0]
      ∧ primaryOf [1, 0] = some 1 ∧ (1 : ℕ) ≠ 0 :=
  ⟨by decide, by decide, rfl, by decide⟩

/-- The generic facts about taking the first three entries of a ranking
that satisfy a sign predicate. -/
lemma take3_filter_facts (vals : List ℚ) (l : List ℕ) (p : ℕ → Bool)
    (hperm : List.Perm l (List.range vals.length))
    (hsort : List.Pairwise (fun i j => |vals.getD j 0| ≤ |vals.getD i 0|) l) :
    (∀ i ∈ (l.filter p).take 3, p i = true)
      ∧ ((l.filter p).take 3).length = min 3 ((List.range vals.length).countP p)
      ∧ (∀ i ∈ (l.filter p).take 3, ∀ j, j < vals.length → p j = true →
          j ∉ (l.filter p).take 3 → |vals.getD j 0| ≤ |vals.getD i 0|)
      ∧ List.Pairwise (fun i j => |vals.getD j 0| ≤ |vals.getD i 0|)
          ((l.filter p).take 3) := by
  have hpwf : List.Pairwise (fun i j => |vals.getD j 0| ≤ |vals.getD i 0|) (l.filter p) :=
    hsort.filter p
  refine ⟨?_, ?_, ?_, ?_⟩
  · intro i hi
    have := List.mem_of_mem_take hi
    exact (List.mem_filter.1 this).2
  · rw [List.length_take, ← List.countP_eq_length_filter, hperm.countP_eq]
  · intro i hi j hj hpj hjn
    have hjr : j ∈ l := hperm.mem_iff.2 (List.mem_range.2 hj)
    have hjf : j ∈ l.filter p := List.mem_filter.2 ⟨hjr, hpj⟩
    rw [← List.take_append_drop 3 (l.filter p)] at hjf
    rcases List.mem_append.1 hjf with hjt | hjd
    · exact absurd hjt hjn
    · have hpw2 := hpwf
      rw [← List.take_append_drop 3 (l.filter p)] at hpw2
      exact (List.pairwise_append.1 hpw2).2.2 i hi j hjd
  · exact hpwf.sublist (List.take_sublist 3 _)

/-- Claim C6, amended: the program ranks features by absolute
contribution descending, but the order of exact ties is unspecified (the
default numpy quicksort is unstable) rather than the canonical feature
order.  For every ranking the program may produce, the selection returns
its first 3 positive contributors, its first 3 negative contributors and
its head as primary driver; each selection contains only features of its
sign, has length 3 unless fewer such features exist, is ordered by
absolute contribution descending, and every same-signed feature left out
has absolute contribution at most that of each selected feature; the
primary driver's absolute contribution is maximal among all features. -/
theorem topAttribution_selection_upto_ties :
    ∀ (vals : List ℚ) (l : List ℕ), IsRankingOf vals l →
      (∀ i ∈ topPosOf vals l, (0 : ℚ) < vals.getD i 0)
        ∧ (topPosOf vals l).length
            = min 3 ((List.range vals.length).countP (fun i => decide (0 < vals.getD i 0)))
        ∧ (∀ i ∈ topPosOf vals l, ∀ j, j < vals.length → (0 : ℚ) < vals.getD j 0 →
            j ∉ topPosOf vals l → |vals.getD j 0| ≤ |vals.getD i 0|)
        ∧ List.Pairwise (fun i j => |vals.getD j 0| ≤ |vals.getD i 0|) (topPosOf vals l)
        ∧ (∀ i ∈ topNegOf vals l, vals.getD i 0 < 0)
        ∧ (topNegOf vals l).length
            = min 3 ((List.range vals.length).countP (fun i => decide (vals.getD i 0 < 0)))
        ∧ (∀ i ∈ topNegOf vals l, ∀ j, j < vals.length → vals.getD j 0 < 0 →
            j ∉ topNegOf vals l → |vals.getD j 0| ≤ |vals.getD i 0|)
        ∧ List.Pairwise (fun i j => |vals.getD j 0| ≤ |vals.getD i 0|) (topNegOf vals l)
        ∧ (∀ m, primaryOf l = some m → ∀ j, j < vals.length →
            |vals.getD j 0| ≤ |vals.getD m 0|)
        ∧ (vals ≠ [] → ∃ m, primaryOf l = some m) := by
  intro vals l hrank
  obtain ⟨hperm, hsort⟩ := hrank
  obtain ⟨hp1, hp2, hp3, hp4⟩ :=
    take3_filter_facts vals l (fun i => decide (0 < vals.getD i 0)) hperm hsort
  obtain ⟨hn1, hn2, hn3, hn4⟩ :=
    take3_filter_facts vals l (fun i => decide (vals.getD i 0 < 0)) hperm hsort
  refine ⟨?_, hp2, ?_, hp4, ?_, hn2, ?_, hn4, ?_, ?_⟩
  · intro i hi
    exact of_decide_eq_true (hp1 i hi)
  · intro i hi j hj hpj hjn
    exact hp3 i hi j hj (decide_eq_true hpj) hjn
  · intro i hi
    exact of_decide_eq_true (hn1 i hi)
  · intro i hi j hj hpj hjn
    exact hn3 i hi j hj (decide_eq_true hpj) hjn
  · intro m hm j hj
    have hjr : j ∈ l := hperm.mem_iff.2 (List.mem_range.2 hj)
    unfold primaryOf at hm
    cases hr : l with
    | nil =>
      rw [hr] at hm
      exact Option.noConfusion hm
    | cons a t =>
      rw [hr] at hm hjr hsort
      have ham : a = m := by simpa using hm
      subst ham
      rcases List.mem_cons.1 hjr with hja | hjt
      · rw [hja]
      · exact (List.pairwise_cons.1 hsort).1 j hjt
  · intro hne
    have hlen : l.length = vals.length := by
      rw [hperm.length_eq, List.length_range]
    cases hr : l with
    | nil =>
      rw [hr] at hlen
      simp at hlen
      exact absurd (List.length_eq_zero.1 hlen.symm) hne
    | cons a t =>
      exact ⟨a, rfl⟩

/-- The spec's worked attribution example, scaled by 100 to integer
contributions: [+50, -30, +20, -80, +1]. -/
def exContribs : List ℚ := [50, -30, 20, -80, 1]

/-- Witness for C6: [3, 0, 1, 2, 4] is a possible ranking of the example
vector; its selections are top-pos [0, 2, 4], top-neg [3, 1] and primary
driver 3, and the primary-dominance hypotheses discharged at feature 1
show feature 3's absolute contribution is maximal. -/
theorem topAttribution_selection_upto_ties_witness :
    topPosOf exContribs [3, 0, 1, 2, 4] = [0, 2, 4]
      ∧ topNegOf exContribs [3, 0, 1, 2, 4] = [3, 1]
      ∧ primaryOf [3, 0, 1, 2, 4] = some 3
      ∧ |exContribs.getD 1 0| ≤ |exContribs.getD 3 0| :=
  ⟨by decide, by decide, rfl,
    (topAttribution_selection_upto_ties exContribs [3, 0, 1, 2, 4]
        (by decide)).2.2.2.2.2.2.2.2.1 3 rfl 1 (by decide)⟩

end FinDistress
